import Mathlib

/-!
Shallow embedding of `src/mortality_classification.py` (training/evaluation
orchestration for mortality classification).

Tensors are modelled as payload lists carrying a device tag; the external
collaborators (the five model forward functions, the sklearn metric
functions, the cross-entropy criterion and the exponential underlying
softmax) are abstracted as function-valued parameters.  Python failures by
unbound local variables are modelled as `Except.error` results.  All numeric
scalars are rationals.
-/

namespace MortalityClassification

/-- Tensor with a device tag; `Tensor.to` models `torch.Tensor.to(device)`. -/
structure Tensor where
  data : List ℚ
  dev : String
deriving DecidableEq

/-- Models `torch.Tensor.to(device)`: the payload is unchanged, the device tag is set. -/
def Tensor.to (t : Tensor) (device : String) : Tensor :=
  { t with dev := device }

/-- Batch: the ordered six-tuple `data, times, static, labels, mask, delta`
unpacked at lines 200, 232 and 321 of `mortality_classification.py`.
Labels are kept as a plain list: the code never moves them to the device. -/
structure Batch where
  data : Tensor
  times : Tensor
  static : Tensor
  labels : List ℕ
  mask : Tensor
  delta : Tensor
deriving DecidableEq

/-- Device-transfer policy of the per-batch loops (`mortality_classification.py`
lines 201-206 in `train`'s training step, 234-239 in its validation step and
323-328 in `test`): `data`, `static`, `times`, `mask` and `delta` are moved to
the compute device unless the model type is `"grud"`; `labels` are never moved. -/
def moveBatch (model_type device : String) (b : Batch) : Batch :=
  if model_type ≠ "grud" then
    { b with data := b.data.to device, static := b.static.to device,
             times := b.times.to device, mask := b.mask.to device,
             delta := b.delta.to device }
  else b

/-- Type of a model forward pass: per-sample two-class logits, or a
(logits, reconstruction-loss) pair for auto-encoding variants. -/
def Fwd : Type :=
  Batch → List (ℚ × ℚ) ⊕ (List (ℚ × ℚ) × ℚ)

/-- Lines 213-216 (and 243-244, 332-333): when the model returned a tuple it is
unpacked into predictions and auxiliary loss, otherwise `recon_loss = 0`. -/
def unpackPredictions (p : List (ℚ × ℚ) ⊕ (List (ℚ × ℚ) × ℚ)) : List (ℚ × ℚ) × ℚ :=
  match p with
  | .inl preds => (preds, 0)
  | .inr pr => pr

/-- JSON-like values appearing in `test_results.json`: scalar metrics and the
per-class sub-dictionaries of `sklearn.metrics.classification_report`. -/
inductive JVal where
  | num : ℚ → JVal
  | obj : List (String × ℚ) → JVal
deriving DecidableEq

/-- External numeric collaborators, abstracted as functions: the exponential
that underlies softmax, `sklearn.metrics.roc_auc_score`,
`sklearn.metrics.average_precision_score`, the `nn.CrossEntropyLoss` criterion
applied to raw logits and labels, `sklearn.metrics.accuracy_score`, and
`sklearn.metrics.classification_report` with `output_dict=True`. -/
structure Collab where
  exp : ℚ → ℚ
  roc_auc_score : List ℕ → List ℚ → ℚ
  average_precision_score : List ℕ → List ℚ → ℚ
  criterion : List (ℚ × ℚ) → List ℕ → ℚ
  accuracy_score : List ℕ → List ℕ → ℚ
  classification_report : List ℕ → List ℕ → List (String × JVal)

/-- Row-wise two-class softmax: `torch.nn.functional.softmax(_, dim=1)` applied
to one row of an (N, 2) logit tensor, with the exponential abstracted. -/
def softmax2 (exp : ℚ → ℚ) (p : ℚ × ℚ) : ℚ × ℚ :=
  (exp p.1 / (exp p.1 + exp p.2), exp p.2 / (exp p.1 + exp p.2))

/-- Result of one validation pass (lines 227-255 of `train`). -/
structure ValResult where
  labels_list : List ℕ
  predictions_list : List (ℚ × ℚ)
  probs : List (ℚ × ℚ)
  auc_score : ℚ
  aupr_score : ℚ
  val_loss : ℚ

/-- Validation pass, lines 227-255: accumulate labels and (CPU) logits over all
validation batches (each batch conditionally moved to the device first), apply
softmax over the two-class axis, score AUROC and AUPRC against the
positive-class probability column, and compute the validation loss by the
criterion over the raw accumulated logits. -/
def validationPass (C : Collab) (fwd : Fwd) (model_type device : String)
    (batches : List Batch) : ValResult :=
  let labels_list := (batches.map Batch.labels).flatten
  let predictions_list :=
    (batches.map (fun b => (unpackPredictions (fwd (moveBatch model_type device b))).1)).flatten
  let probs := predictions_list.map (softmax2 C.exp)
  let auc_score := C.roc_auc_score labels_list (probs.map Prod.snd)
  let aupr_score := C.average_precision_score labels_list (probs.map Prod.snd)
  let val_loss := C.criterion predictions_list labels_list
  { labels_list := labels_list, predictions_list := predictions_list, probs := probs,
    auc_score := auc_score, aupr_score := aupr_score, val_loss := val_loss }

/-- Arithmetic mean, modelling `np.mean` over the per-batch loss list. -/
def mean (l : List ℚ) : ℚ :=
  l.sum / l.length

/-- Training step of one epoch, lines 197-222: each training batch is
conditionally moved to the device, run through the model (whose parameter
state after `j` optimizer steps of epoch `n` is abstracted as `fwdAt j`), a
possible (predictions, reconstruction-loss) pair is unpacked, and the batch
loss `criterion(predictions.cpu(), labels) + recon_loss` is collected into
`loss_list`.  Backpropagation and the optimizer update are external to the
embedding and folded into `fwdAt`. -/
def trainingPass (criterion : List (ℚ × ℚ) → List ℕ → ℚ) (fwdAt : ℕ → Fwd)
    (model_type device : String) (batches : List Batch) : List ℚ :=
  batches.enum.map (fun jb =>
    let b := moveBatch model_type device jb.2
    let pr := unpackPredictions (fwdAt jb.1 b)
    criterion pr.1 jb.2.labels + pr.2)

/-- Modelled from the spec: the `EarlyStopping` class is imported from
`models/early_stopper.py`, which is not among this repository's source files;
its record follows spec section 4.3 (best observed criterion value,
lower-is-better; counter of consecutive non-improving epochs; stop flag). -/
structure EarlyStopping where
  patience : ℕ
  best : Option ℚ
  counter : ℕ
  early_stop : Bool
deriving DecidableEq

/-- Modelled from the spec: one scalar submission to the Early Stopping
Controller (spec section 4.3).  If no prior best exists or the new value is
less than the best, the best is recorded, the model is checkpointed and the
counter resets; otherwise the counter increments and, on reaching the
patience, the stop flag is set.  The returned Boolean reports whether the
checkpoint file was written by this call. -/
def EarlyStopping.call (es : EarlyStopping) (v : ℚ) : EarlyStopping × Bool :=
  match es.best with
  | none => ({ es with best := some v, counter := 0 }, true)
  | some b =>
      if v < b then ({ es with best := some v, counter := 0 }, true)
      else if es.patience ≤ es.counter + 1 then
        ({ es with counter := es.counter + 1, early_stop := true }, false)
      else ({ es with counter := es.counter + 1 }, false)

/-- Criterion dispatch of lines 266-273: the scalar handed to
`early_stopping(...)`, or `none` when no branch of the `if`/`elif` chain
matches (in which case no call is made at all). -/
def earlyStopSubmission (early_stop_criteria : String)
    (auc_score aupr_score val_loss : ℚ) : Option ℚ :=
  if early_stop_criteria = "auroc" then some (1 - auc_score)
  else if early_stop_criteria = "auprc" then some (1 - aupr_score)
  else if early_stop_criteria = "auprc+auroc" then some (1 - (aupr_score + auc_score))
  else if early_stop_criteria = "loss" then some val_loss
  else none

/-- Header row of `training_log.csv`, line 191. -/
def header : List String :=
  ["epoch", "train_loss", "val_loss", "val_roc_auc_score"]

/-- One data row of `training_log.csv`, lines 257-261: the four stringified
fields `epoch + 1`, mean training loss, validation loss and validation AUROC. -/
def mkRow (epoch : ℕ) (train_loss val_loss auc : ℚ) : List String :=
  [toString (epoch + 1), toString train_loss, toString val_loss, toString auc]

/-- Configuration and collaborators a call of `train` closes over: the metric
collaborators, the model forward state during epoch `n` after `j` optimizer
steps (`modelTrainAt n j`) and at validation time of epoch `n` (`modelValAt n`),
the model type, the device, the early-stop criterion and the two data streams. -/
structure TrainCfg where
  C : Collab
  modelTrainAt : ℕ → ℕ → Fwd
  modelValAt : ℕ → Fwd
  model_type : String
  device : String
  early_stop_criteria : String
  train_batches : List Batch
  val_batches : List Batch

/-- The `loss_list` collected during the training step of epoch `n`. -/
def lossListAt (cfg : TrainCfg) (n : ℕ) : List ℚ :=
  trainingPass cfg.C.criterion (cfg.modelTrainAt n) cfg.model_type cfg.device cfg.train_batches

/-- The validation result of epoch `n`. -/
def epochVal (cfg : TrainCfg) (n : ℕ) : ValResult :=
  validationPass cfg.C (cfg.modelValAt n) cfg.model_type cfg.device cfg.val_batches

/-- The row appended to `training_log.csv` at epoch `n`. -/
def logRow (cfg : TrainCfg) (n : ℕ) : List String :=
  mkRow n (mean (lossListAt cfg n)) (epochVal cfg n).val_loss (epochVal cfg n).auc_score

/-- Observable state threaded through the epoch loop of `train`: the rows of
`training_log.csv` so far (header included), the scalars submitted to the
Early Stopping Controller in order, the epochs at which the checkpoint file
was written, the controller record, the Python local `val_loss` (`none` while
the name is still unbound) and the number of completed epochs. -/
structure LoopState where
  rows : List (List String)
  subs : List ℚ
  ckpts : List ℕ
  es : EarlyStopping
  val_loss : Option ℚ
  epochsRun : ℕ

/-- The scalar submitted to the Early Stopping Controller at epoch `n`, if any. -/
def submissionAt (cfg : TrainCfg) (n : ℕ) : Option ℚ :=
  earlyStopSubmission cfg.early_stop_criteria (epochVal cfg n).auc_score
    (epochVal cfg n).aupr_score (epochVal cfg n).val_loss

/-- Body of one iteration of the epoch loop (lines 196-273): run the training
step, run the validation pass, set the local `val_loss`, append the log row,
then dispatch on the early-stop criterion and submit at most one scalar to the
controller (checkpointing when the call reports an improvement). -/
def stepEpoch (cfg : TrainCfg) (epoch : ℕ) (s : LoopState) : LoopState :=
  let s1 : LoopState :=
    { s with rows := s.rows ++ [logRow cfg epoch],
             val_loss := some (epochVal cfg epoch).val_loss,
             epochsRun := s.epochsRun + 1 }
  match submissionAt cfg epoch with
  | some x =>
      let r := s1.es.call x
      { s1 with es := r.1, subs := s1.subs ++ [x],
                ckpts := if r.2 then s1.ckpts ++ [epoch] else s1.ckpts }
  | none => s1

/-- The epoch loop `for epoch in range(epochs)` of lines 194-277: run one
epoch body, then break when the controller's stop flag is set (the break test
at line 275 runs after the log append and the submission). -/
def runEpochs (cfg : TrainCfg) : ℕ → ℕ → LoopState → LoopState
  | 0, _, s => s
  | fuel + 1, epoch, s =>
      if (stepEpoch cfg epoch s).es.early_stop then stepEpoch cfg epoch s
      else runEpochs cfg fuel (epoch + 1) (stepEpoch cfg epoch s)

/-- Model construction dispatch of lines 137-175: the `if`/`elif` chain binds
`model` to one of the five constructors; an unrecognized identifier leaves
`model` unbound (there is no `else` branch), which line 176 then hits. -/
def buildModel (model_type : String) : Option String :=
  if model_type = "grud" then some "GRUDModel"
  else if model_type = "ipnets" then some "InterpolationPredictionModel"
  else if model_type = "seft" then some "DeepSetAttentionModel"
  else if model_type = "transformer" then some "EncoderClassifierRegular"
  else if model_type = "mamba" then some "CustomMambaModel"
  else none

/-- Observable outcome of a call of `train`: the log rows written, the
submission and checkpoint traces, the final controller record, the number of
completed epochs, the device argument the call received, and its return value:
`Except.ok` with the returned validation loss, or `Except.error` for an
uncaught `UnboundLocalError`. -/
structure TrainResult where
  rows : List (List String)
  subs : List ℚ
  ckpts : List ℕ
  es : EarlyStopping
  epochsRun : ℕ
  device : String
  ret : Except String ℚ

/-- The `train` function, lines 79-292.  An unrecognized model type fails at
line 176 (`model` unbound) before the log file is created and before any
epoch; otherwise the header is written, the epoch loop runs, and line 292
returns the local `val_loss`, which is unbound when the loop body never ran. -/
def train (cfg : TrainCfg) (epochs patience : ℕ) : TrainResult :=
  match buildModel cfg.model_type with
  | none =>
      { rows := [], subs := [], ckpts := [],
        es := { patience := patience, best := none, counter := 0, early_stop := false },
        epochsRun := 0, device := cfg.device,
        ret := .error "UnboundLocalError: model" }
  | some _ =>
      let init : LoopState :=
        { rows := [header], subs := [], ckpts := [],
          es := { patience := patience, best := none, counter := 0, early_stop := false },
          val_loss := none, epochsRun := 0 }
      let fin := runEpochs cfg epochs 0 init
      { rows := fin.rows, subs := fin.subs, ckpts := fin.ckpts, es := fin.es,
        epochsRun := fin.epochsRun, device := cfg.device,
        ret := match fin.val_loss with
               | some v => .ok v
               | none => .error "UnboundLocalError: val_loss" }

/-- Whether an `Except` result is a normal return. -/
def exceptIsOk : Except String ℚ → Bool
  | .ok _ => true
  | .error _ => false

/-- Collaborators of `test`: the numeric collaborators plus the model forward
pass as a function of the loaded parameter state (a state-dict identifier). -/
structure TestCollab extends Collab where
  fwdOf : String → Fwd

/-- Python `dict.update` on insertion-ordered association lists: keys of `d`
keep their position with values overridden by `r` where present; keys only in
`r` are appended in order. -/
def dictUpdate (d r : List (String × JVal)) : List (String × JVal) :=
  d.map (fun kv => (kv.1, (((r.find? (fun kv2 => kv2.1 == kv.1)).map Prod.snd).getD kv.2)))
    ++ r.filter (fun kv2 => d.all (fun kv => kv.1 != kv2.1))

/-- Index of the larger of two class scores: `torch.argmax(_, dim=1)` (and
`np.argmax(_, axis=1)`) on one row, ties resolved to index 0. -/
def argmax2 (p : ℚ × ℚ) : ℕ :=
  if p.1 < p.2 then 1 else 0

/-- Observable outcome of a call of `test`: the parameter state actually used
for the forward pass, the accumulated labels, logits and probabilities, the
four headline scalars, the content of `test_results.json` and the returned
quadruple. -/
structure TestResult where
  paramsUsed : String
  labels_list : List ℕ
  predictions_list : List (ℚ × ℚ)
  probs : List (ℚ × ℚ)
  loss : ℚ
  accuracy_score : ℚ
  auprc_score : ℚ
  auc_score : ℚ
  device : String
  json : List (String × JVal)
  ret : ℚ × ℚ × ℚ × ℚ

/-- The `test` function, lines 295-370: reload the checkpointed parameter
state over the passed-in model (line 311), run one gradient-free pass over the
test stream with the same batch handling as validation, compute loss over raw
logits, softmax probabilities, the classification report and confusion matrix
over argmax predictions, AUROC/AUPRC over the positive-class probability and
accuracy over argmax predictions, persist the four scalars merged (by
`dict.update`) with the report to `test_results.json`, and return the four
scalars. -/
def test (T : TestCollab) (model_type device : String)
    (model_params checkpoint : String) (test_batches : List Batch) : TestResult :=
  let θ := checkpoint
  let labels_list := (test_batches.map Batch.labels).flatten
  let predictions_list :=
    (test_batches.map
      (fun b => (unpackPredictions (T.fwdOf θ (moveBatch model_type device b))).1)).flatten
  let loss := T.criterion predictions_list labels_list
  let probs := predictions_list.map (softmax2 T.exp)
  let results := T.classification_report labels_list (probs.map argmax2)
  let auc_score := T.roc_auc_score labels_list (probs.map Prod.snd)
  let auprc_score := T.average_precision_score labels_list (probs.map Prod.snd)
  let accuracy_score := T.accuracy_score labels_list (probs.map argmax2)
  let test_metrics : List (String × JVal) :=
    [("test_loss", .num loss), ("accuracy", .num accuracy_score),
     ("AUPRC", .num auprc_score), ("AUROC", .num auc_score)]
  { paramsUsed := θ, labels_list := labels_list, predictions_list := predictions_list,
    probs := probs, loss := loss, accuracy_score := accuracy_score,
    auprc_score := auprc_score, auc_score := auc_score, device := device,
    json := dictUpdate test_metrics results,
    ret := (loss, accuracy_score, auprc_score, auc_score) }

/-- Configuration of one `DataLoader` request (batch size and shuffling). -/
structure LoaderCfg where
  batch_size : ℕ
  shuffle : Bool
deriving DecidableEq

/-- Device selection of lines 44-51: CUDA if available, else MPS if available,
else CPU. -/
def selectDevice (cuda_available mps_available : Bool) : String :=
  if cuda_available then "cuda" else if mps_available then "mps" else "cpu"

/-- Observable outcome of a call of `train_test`. -/
structure RunResult where
  train_batch_size : ℕ
  train_loader : LoaderCfg
  test_loader : LoaderCfg
  val_loader : LoaderCfg
  device : String
  trainRes : TrainResult
  testRes : TestResult
  ret : ℚ × ℚ × ℚ × ℚ

/-- The `train_test` function, lines 21-76: halve the configured batch size for
the training loader (training concatenates two paired sub-batches), request the
three loaders (train shuffled at the halved size, test shuffled and val
unshuffled at the full size), select the device once, call `train` and then
`test` with that same device value, and return `test`'s four scalars.  The
checkpoint state-dict read back by `test` is abstracted as `checkpoint`. -/
def train_test (T : TestCollab) (modelTrainAt : ℕ → ℕ → Fwd) (modelValAt : ℕ → Fwd)
    (train_batches val_batches test_batches : List Batch)
    (model_type : String) (model_params checkpoint : String)
    (cuda_available mps_available : Bool)
    (batch_size epochs patience : ℕ) (early_stop_criteria : String) : RunResult :=
  let train_batch_size := batch_size / 2
  let train_loader : LoaderCfg := { batch_size := train_batch_size, shuffle := true }
  let test_loader : LoaderCfg := { batch_size := batch_size, shuffle := true }
  let val_loader : LoaderCfg := { batch_size := batch_size, shuffle := false }
  let device := selectDevice cuda_available mps_available
  let cfg : TrainCfg :=
    { C := T.toCollab, modelTrainAt := modelTrainAt, modelValAt := modelValAt,
      model_type := model_type, device := device,
      early_stop_criteria := early_stop_criteria,
      train_batches := train_batches, val_batches := val_batches }
  let trainRes := train cfg epochs patience
  let testRes := test T model_type device model_params checkpoint test_batches
  { train_batch_size := train_batch_size, train_loader := train_loader,
    test_loader := test_loader, val_loader := val_loader, device := device,
    trainRes := trainRes, testRes := testRes, ret := testRes.ret }

/-- Concrete two-sample batch used to evaluate the development on inputs. -/
def exBatch : Batch :=
  { data := { data := [1, 2], dev := "cpu" },
    times := { data := [0, 1], dev := "cpu" },
    static := { data := [0], dev := "cpu" },
    labels := [1, 0],
    mask := { data := [1, 1], dev := "cpu" },
    delta := { data := [0, 1], dev := "cpu" } }

/-- Concrete stand-ins for the external numeric collaborators. -/
def exCollab : Collab :=
  { exp := fun q => 1 + q * q,
    roc_auc_score := fun _ _ => 1/2,
    average_precision_score := fun _ _ => 3/4,
    criterion := fun _ _ => 1,
    accuracy_score := fun _ _ => 4/5,
    classification_report := fun _ _ => [("accuracy", .num (4/5))] }

/-- Concrete model forward pass used on example inputs. -/
def exFwd : Fwd :=
  fun b => .inl (b.labels.map (fun l => ((l : ℚ), 1 - (l : ℚ))))

/-- Concrete training configuration with selectable model type and criterion. -/
def exCfg (model_type early_stop_criteria : String) : TrainCfg :=
  { C := exCollab,
    modelTrainAt := fun _ _ => exFwd,
    modelValAt := fun _ => exFwd,
    model_type := model_type,
    device := "cpu",
    early_stop_criteria := early_stop_criteria,
    train_batches := [exBatch],
    val_batches := [exBatch] }

section Lemmas

variable (cfg : TrainCfg)

lemma stepEpoch_epochsRun (epoch : ℕ) (s : LoopState) :
    (stepEpoch cfg epoch s).epochsRun = s.epochsRun + 1 := by
  unfold stepEpoch
  cases h : submissionAt cfg epoch <;> simp [h]

lemma stepEpoch_rows (epoch : ℕ) (s : LoopState) :
    (stepEpoch cfg epoch s).rows = s.rows ++ [logRow cfg epoch] := by
  unfold stepEpoch
  cases h : submissionAt cfg epoch <;> simp [h]

lemma stepEpoch_val_loss (epoch : ℕ) (s : LoopState) :
    (stepEpoch cfg epoch s).val_loss = some (epochVal cfg epoch).val_loss := by
  unfold stepEpoch
  cases h : submissionAt cfg epoch <;> simp [h]

lemma stepEpoch_subs (epoch : ℕ) (s : LoopState) :
    (stepEpoch cfg epoch s).subs = s.subs ++ (submissionAt cfg epoch).toList := by
  unfold stepEpoch
  cases h : submissionAt cfg epoch <;> simp [h]

lemma stepEpoch_of_none (epoch : ℕ) (s : LoopState)
    (h : submissionAt cfg epoch = none) :
    (stepEpoch cfg epoch s).es = s.es ∧ (stepEpoch cfg epoch s).subs = s.subs ∧
    (stepEpoch cfg epoch s).ckpts = s.ckpts := by
  unfold stepEpoch
  simp [h]

lemma flatten_singletons (f : ℕ → ℚ) (l : List ℕ) :
    (l.map (fun i => [f i])).flatten = l.map f := by
  induction l with
  | nil => rfl
  | cons a t ih => simp [ih]

lemma runEpochs_trace : ∀ (fuel epoch : ℕ) (s : LoopState), ∃ k,
    k ≤ fuel ∧
    (runEpochs cfg fuel epoch s).epochsRun = s.epochsRun + k ∧
    (runEpochs cfg fuel epoch s).rows =
      s.rows ++ (List.range k).map (fun i => logRow cfg (epoch + i)) ∧
    (runEpochs cfg fuel epoch s).subs =
      s.subs ++ ((List.range k).map (fun i => (submissionAt cfg (epoch + i)).toList)).flatten := by
  intro fuel
  induction fuel with
  | zero =>
      intro e s
      exact ⟨0, by simp [runEpochs]⟩
  | succ n ih =>
      intro e s
      simp only [runEpochs]
      split
      · refine ⟨1, by omega, ?_, ?_, ?_⟩
        · rw [stepEpoch_epochsRun]
        · rw [stepEpoch_rows]; simp [List.range_succ]
        · rw [stepEpoch_subs]; simp [List.range_succ]
      · obtain ⟨k, hk, h1, h2, h3⟩ := ih (e + 1) (stepEpoch cfg e s)
        refine ⟨k + 1, by omega, ?_, ?_, ?_⟩
        · rw [h1, stepEpoch_epochsRun]; omega
        · rw [h2, stepEpoch_rows]
          simp [List.range_succ_eq_map, List.map_map, Function.comp_def, Nat.add_right_comm,
            Nat.add_assoc, Nat.add_comm, Nat.add_left_comm]
        · rw [h3, stepEpoch_subs]
          simp [List.range_succ_eq_map, List.map_map, Function.comp_def, Nat.add_right_comm,
            Nat.add_assoc, Nat.add_comm, Nat.add_left_comm]

lemma runEpochs_no_submission (hc : ∀ n, submissionAt cfg n = none) :
    ∀ (fuel epoch : ℕ) (s : LoopState), s.es.early_stop = false →
    (runEpochs cfg fuel epoch s).subs = s.subs ∧
    (runEpochs cfg fuel epoch s).ckpts = s.ckpts ∧
    (runEpochs cfg fuel epoch s).es = s.es ∧
    (runEpochs cfg fuel epoch s).epochsRun = s.epochsRun + fuel := by
  intro fuel
  induction fuel with
  | zero =>
      intro e s _
      simp [runEpochs]
  | succ n ih =>
      intro e s hs
      obtain ⟨hes, hsubs, hck⟩ := stepEpoch_of_none cfg e s (hc e)
      simp only [runEpochs, hes, hs, Bool.false_eq_true, if_false]
      obtain ⟨i1, i2, i3, i4⟩ := ih (e + 1) (stepEpoch cfg e s) (by rw [hes]; exact hs)
      refine ⟨by rw [i1, hsubs], by rw [i2, hck], by rw [i3, hes], ?_⟩
      rw [i4, stepEpoch_epochsRun]
      omega

lemma runEpochs_val_loss : ∀ (fuel epoch : ℕ) (s : LoopState),
    (0 < fuel ∨ s.val_loss.isSome) → ((runEpochs cfg fuel epoch s).val_loss).isSome := by
  intro fuel
  induction fuel with
  | zero =>
      intro e s h
      rcases h with h | h
      · omega
      · simpa [runEpochs] using h
  | succ n ih =>
      intro e s _
      simp only [runEpochs]
      split
      · rw [stepEpoch_val_loss]; rfl
      · exact ih (e + 1) (stepEpoch cfg e s) (Or.inr (by rw [stepEpoch_val_loss]; rfl))

lemma train_subs_of_some (f : ℕ → ℚ) (hf : ∀ n, submissionAt cfg n = some (f n))
    (epochs patience : ℕ) :
    (train cfg epochs patience).subs =
      (List.range (train cfg epochs patience).epochsRun).map f := by
  cases h : buildModel cfg.model_type with
  | none => simp [train, h]
  | some m =>
      simp only [train, h]
      obtain ⟨k, _, h1, _, h3⟩ := runEpochs_trace cfg epochs 0
        { rows := [header], subs := [], ckpts := [],
          es := { patience := patience, best := none, counter := 0, early_stop := false },
          val_loss := none, epochsRun := 0 }
      rw [h3, h1]
      simp [hf, flatten_singletons]

end Lemmas

/-- C4: in every validation pass, the accumulated per-sample logits are turned
into probabilities by softmax over the two-class axis, AUROC and AUPRC are
computed against the probability of the positive class (second softmax
component), and the validation loss is the criterion applied to the raw
accumulated logits, not to the probabilities. -/
theorem validation_softmax_and_metric_inputs (C : Collab) (fwd : Fwd)
    (model_type device : String) (batches : List Batch) :
    (validationPass C fwd model_type device batches).probs =
      ((validationPass C fwd model_type device batches).predictions_list).map
        (softmax2 C.exp) ∧
    (validationPass C fwd model_type device batches).auc_score =
      C.roc_auc_score (validationPass C fwd model_type device batches).labels_list
        (((validationPass C fwd model_type device batches).probs).map Prod.snd) ∧
    (validationPass C fwd model_type device batches).aupr_score =
      C.average_precision_score (validationPass C fwd model_type device batches).labels_list
        (((validationPass C fwd model_type device batches).probs).map Prod.snd) ∧
    (validationPass C fwd model_type device batches).val_loss =
      C.criterion (validationPass C fwd model_type device batches).predictions_list
        (validationPass C fwd model_type device batches).labels_list :=
  ⟨rfl, rfl, rfl, rfl⟩

/-- C5: in the training, validation and test loops alike, every batch is routed
through the device-transfer step, which moves the five tensor fields to the
compute device exactly when the model type is not grud and passes the batch
unmoved when it is grud. -/
theorem grud_device_transfer_exemption (model_type device : String) (b : Batch) :
    (model_type = "grud" → moveBatch model_type device b = b) ∧
    (model_type ≠ "grud" →
      moveBatch model_type device b =
        { data := b.data.to device, times := b.times.to device,
          static := b.static.to device, labels := b.labels,
          mask := b.mask.to device, delta := b.delta.to device }) ∧
    (∀ (C : Collab) (fwd : Fwd) (batches : List Batch),
      (validationPass C fwd model_type device batches).predictions_list =
        (batches.map (fun bb =>
          (unpackPredictions (fwd (moveBatch model_type device bb))).1)).flatten) ∧
    (∀ (criterion : List (ℚ × ℚ) → List ℕ → ℚ) (fwdAt : ℕ → Fwd) (batches : List Batch),
      trainingPass criterion fwdAt model_type device batches =
        batches.enum.map (fun jb =>
          criterion (unpackPredictions (fwdAt jb.1 (moveBatch model_type device jb.2))).1
              jb.2.labels
            + (unpackPredictions (fwdAt jb.1 (moveBatch model_type device jb.2))).2)) ∧
    (∀ (T : TestCollab) (model_params checkpoint : String) (batches : List Batch),
      (test T model_type device model_params checkpoint batches).predictions_list =
        (batches.map (fun bb =>
          (unpackPredictions (T.fwdOf checkpoint (moveBatch model_type device bb))).1)).flatten) := by
  refine ⟨fun h => by simp [moveBatch, h], fun h => by simp [moveBatch, h],
    fun C fwd bs => rfl, fun c f bs => rfl, fun T mp ck bs => rfl⟩

/-- Witness for the grud device-transfer exemption at concrete inputs. -/
theorem grud_device_transfer_exemption_witness :
    moveBatch "grud" "cuda" exBatch = exBatch ∧
    moveBatch "mamba" "cuda" exBatch =
      { data := exBatch.data.to "cuda", times := exBatch.times.to "cuda",
        static := exBatch.static.to "cuda", labels := exBatch.labels,
        mask := exBatch.mask.to "cuda", delta := exBatch.delta.to "cuda" } :=
  ⟨(grud_device_transfer_exemption "grud" "cuda" exBatch).1 rfl,
   (grud_device_transfer_exemption "mamba" "cuda" exBatch).2.1 (by decide)⟩

/-- C10: with an epoch budget of 0 the epoch loop body never runs, so the
local validation loss is never bound and `train` fails (UnboundLocalError at
the return statement) instead of returning a (validation loss, model) pair. -/
theorem zero_epoch_budget_fails (cfg : TrainCfg) (patience : ℕ) :
    (train cfg 0 patience).epochsRun = 0 ∧
    exceptIsOk (train cfg 0 patience).ret = false := by
  cases h : buildModel cfg.model_type <;> simp [train, h, runEpochs, exceptIsOk]

/-- C3: a model-type identifier outside grud, ipnets, seft, transformer, mamba
leaves `model` unbound, so `train` fails at model-construction time (line 176),
before the log file is created and before any training epoch begins. -/
theorem unknown_model_type_fails (cfg : TrainCfg) (epochs patience : ℕ)
    (h : cfg.model_type ∉ (["grud", "ipnets", "seft", "transformer", "mamba"] : List String)) :
    buildModel cfg.model_type = none ∧
    (train cfg epochs patience).ret = .error "UnboundLocalError: model" ∧
    (train cfg epochs patience).epochsRun = 0 ∧
    (train cfg epochs patience).rows = [] := by
  simp only [List.mem_cons, List.not_mem_nil, or_false, not_or] at h
  obtain ⟨h1, h2, h3, h4, h5⟩ := h
  have hb : buildModel cfg.model_type = none := by
    simp [buildModel, h1, h2, h3, h4, h5]
  exact ⟨hb, by simp [train, hb], by simp [train, hb], by simp [train, hb]⟩

/-- Witness for the unknown-model-type failure at the concrete identifier lstm. -/
theorem unknown_model_type_fails_witness :
    buildModel "lstm" = none ∧
    (train (exCfg "lstm" "loss") 3 5).ret = .error "UnboundLocalError: model" ∧
    (train (exCfg "lstm" "loss") 3 5).epochsRun = 0 ∧
    (train (exCfg "lstm" "loss") 3 5).rows = [] :=
  unknown_model_type_fails (exCfg "lstm" "loss") 3 5 (by decide)

/-- C1: for every completed epoch the scalar submitted to the Early Stopping
Controller is exactly the one the configured criterion selects: 1 - AUROC for
auroc, 1 - AUPRC for auprc, 1 - (AUPRC + AUROC) for auprc+auroc, and the raw
validation loss for loss. -/
theorem early_stop_scalar_selection (cfg : TrainCfg) (epochs patience : ℕ) :
    (cfg.early_stop_criteria = "auroc" →
      (train cfg epochs patience).subs =
        (List.range (train cfg epochs patience).epochsRun).map
          (fun n => 1 - (epochVal cfg n).auc_score)) ∧
    (cfg.early_stop_criteria = "auprc" →
      (train cfg epochs patience).subs =
        (List.range (train cfg epochs patience).epochsRun).map
          (fun n => 1 - (epochVal cfg n).aupr_score)) ∧
    (cfg.early_stop_criteria = "auprc+auroc" →
      (train cfg epochs patience).subs =
        (List.range (train cfg epochs patience).epochsRun).map
          (fun n => 1 - ((epochVal cfg n).aupr_score + (epochVal cfg n).auc_score))) ∧
    (cfg.early_stop_criteria = "loss" →
      (train cfg epochs patience).subs =
        (List.range (train cfg epochs patience).epochsRun).map
          (fun n => (epochVal cfg n).val_loss)) := by
  refine ⟨fun h => ?_, fun h => ?_, fun h => ?_, fun h => ?_⟩ <;>
    · apply train_subs_of_some
      intro n
      simp [submissionAt, earlyStopSubmission, h]

/-- Witness for the early-stop scalar selection: criterion loss submits the
validation loss of each completed epoch. -/
theorem early_stop_scalar_selection_witness :
    ((train (exCfg "mamba" "loss") 2 5).subs =
      (List.range (train (exCfg "mamba" "loss") 2 5).epochsRun).map
        (fun n => (epochVal (exCfg "mamba" "loss") n).val_loss)) ∧
    (train (exCfg "mamba" "loss") 2 5).subs = [1, 1] :=
  ⟨(early_stop_scalar_selection (exCfg "mamba" "loss") 2 5).2.2.2 rfl, by decide⟩

/-- C2: for a run completing k epochs the training log consists of the header
row epoch,train_loss,val_loss,val_roc_auc_score followed by exactly one
four-field row per completed epoch (epoch index, mean training loss over the
epoch's batches, validation loss, validation AUROC), and k never exceeds the
epoch budget. -/
theorem training_log_shape (cfg : TrainCfg) (epochs patience : ℕ) (m : String)
    (hm : buildModel cfg.model_type = some m) :
    (train cfg epochs patience).rows =
      header :: (List.range (train cfg epochs patience).epochsRun).map (logRow cfg) ∧
    (train cfg epochs patience).epochsRun ≤ epochs ∧
    header = ["epoch", "train_loss", "val_loss", "val_roc_auc_score"] ∧
    (∀ n, logRow cfg n =
      [toString (n + 1), toString (mean (lossListAt cfg n)),
       toString (epochVal cfg n).val_loss, toString (epochVal cfg n).auc_score]) ∧
    (∀ row ∈ (train cfg epochs patience).rows, row.length = 4) := by
  obtain ⟨k, hk, h1, h2, _⟩ := runEpochs_trace cfg epochs 0
    { rows := [header], subs := [], ckpts := [],
      es := { patience := patience, best := none, counter := 0, early_stop := false },
      val_loss := none, epochsRun := 0 }
  have hrows : (train cfg epochs patience).rows =
      header :: (List.range (train cfg epochs patience).epochsRun).map (logRow cfg) := by
    simp only [train, hm]
    rw [h2, h1]
    simp
  refine ⟨hrows, ?_, rfl, fun n => rfl, ?_⟩
  · simp only [train, hm]
    rw [h1]
    show 0 + k ≤ epochs
    omega
  · intro row hrow
    rw [hrows] at hrow
    rcases List.mem_cons.mp hrow with h | h
    · simp [h, header]
    · obtain ⟨n, _, hn⟩ := List.mem_map.mp h
      simp [← hn, logRow, mkRow]

/-- Witness for the training-log shape on a concrete two-epoch run. -/
theorem training_log_shape_witness :
    ((train (exCfg "mamba" "loss") 2 5).rows =
      header :: (List.range (train (exCfg "mamba" "loss") 2 5).epochsRun).map
        (logRow (exCfg "mamba" "loss"))) ∧
    (train (exCfg "mamba" "loss") 2 5).epochsRun = 2 ∧
    (train (exCfg "mamba" "loss") 2 5).rows.length = 3 :=
  ⟨(training_log_shape (exCfg "mamba" "loss") 2 5 "CustomMambaModel" rfl).1,
   by decide, by decide⟩

/-- C9: with an early-stop criterion outside auroc, auprc, auprc+auroc, loss,
no scalar is ever submitted to the controller, no checkpoint is written, the
stop flag is never set, the loop raises no error, and every budgeted epoch
runs (the run returns normally whenever the budget is positive). -/
theorem unknown_criterion_never_stops (cfg : TrainCfg) (epochs patience : ℕ) (m : String)
    (hm : buildModel cfg.model_type = some m)
    (hc : cfg.early_stop_criteria ∉ (["auroc", "auprc", "auprc+auroc", "loss"] : List String)) :
    (train cfg epochs patience).subs = [] ∧
    (train cfg epochs patience).ckpts = [] ∧
    (train cfg epochs patience).es =
      { patience := patience, best := none, counter := 0, early_stop := false } ∧
    (train cfg epochs patience).epochsRun = epochs ∧
    (0 < epochs → ∃ v, (train cfg epochs patience).ret = .ok v) := by
  simp only [List.mem_cons, List.not_mem_nil, or_false, not_or] at hc
  obtain ⟨hc1, hc2, hc3, hc4⟩ := hc
  have hnone : ∀ n, submissionAt cfg n = none := by
    intro n
    simp [submissionAt, earlyStopSubmission, hc1, hc2, hc3, hc4]
  obtain ⟨n1, n2, n3, n4⟩ := runEpochs_no_submission cfg hnone epochs 0
    { rows := [header], subs := [], ckpts := [],
      es := { patience := patience, best := none, counter := 0, early_stop := false },
      val_loss := none, epochsRun := 0 } rfl
  refine ⟨by simp only [train, hm]; rw [n1], by simp only [train, hm]; rw [n2],
    by simp only [train, hm]; rw [n3],
    by simp only [train, hm]; rw [n4]; show 0 + epochs = epochs; omega, ?_⟩
  intro hpos
  have hv := runEpochs_val_loss cfg epochs 0
    { rows := [header], subs := [], ckpts := [],
      es := { patience := patience, best := none, counter := 0, early_stop := false },
      val_loss := none, epochsRun := 0 } (Or.inl hpos)
  simp only [train, hm]
  obtain ⟨v, hv'⟩ := Option.isSome_iff_exists.mp hv
  exact ⟨v, by rw [hv']⟩

/-- Witness for the unknown-criterion behaviour at the concrete criterion acc. -/
theorem unknown_criterion_never_stops_witness :
    (train (exCfg "mamba" "acc") 2 5).subs = [] ∧
    (train (exCfg "mamba" "acc") 2 5).ckpts = [] ∧
    (train (exCfg "mamba" "acc") 2 5).es =
      { patience := 5, best := none, counter := 0, early_stop := false } ∧
    (train (exCfg "mamba" "acc") 2 5).epochsRun = 2 ∧
    (∃ v, (train (exCfg "mamba" "acc") 2 5).ret = .ok v) := by
  have h := unknown_criterion_never_stops (exCfg "mamba" "acc") 2 5 "CustomMambaModel"
    rfl (by decide)
  exact ⟨h.1, h.2.1, h.2.2.1, h.2.2.2.1, h.2.2.2.2 (by decide)⟩

/-- C6: the test evaluator first overwrites the given model's parameters with
the persisted checkpoint (its outcome does not depend on the incoming
parameter state at all), runs exactly one pass over the test stream, returns
exactly the four headline scalars (loss, accuracy, AUPRC, AUROC), and
persists those same four scalars merged with the per-class classification
report to test_results.json. -/
theorem test_evaluator_contract (T : TestCollab) (model_type device : String)
    (model_params other_params checkpoint : String) (batches : List Batch) :
    (test T model_type device model_params checkpoint batches).paramsUsed = checkpoint ∧
    test T model_type device model_params checkpoint batches =
      test T model_type device other_params checkpoint batches ∧
    (test T model_type device model_params checkpoint batches).predictions_list =
      (batches.map (fun b =>
        (unpackPredictions (T.fwdOf checkpoint (moveBatch model_type device b))).1)).flatten ∧
    (test T model_type device model_params checkpoint batches).ret =
      ((test T model_type device model_params checkpoint batches).loss,
       (test T model_type device model_params checkpoint batches).accuracy_score,
       (test T model_type device model_params checkpoint batches).auprc_score,
       (test T model_type device model_params checkpoint batches).auc_score) ∧
    (test T model_type device model_params checkpoint batches).json =
      dictUpdate
        [("test_loss", .num (test T model_type device model_params checkpoint batches).loss),
         ("accuracy",
          .num (test T model_type device model_params checkpoint batches).accuracy_score),
         ("AUPRC", .num (test T model_type device model_params checkpoint batches).auprc_score),
         ("AUROC", .num (test T model_type device model_params checkpoint batches).auc_score)]
        (T.classification_report
          (test T model_type device model_params checkpoint batches).labels_list
          (((test T model_type device model_params checkpoint batches).probs).map argmax2)) :=
  ⟨rfl, rfl, rfl, rfl, rfl⟩

/-- C7: the training data loader is requested with the configured batch size
floor-divided by two (training pairs two sub-batches), so a configured batch
size of 64 yields a training loader batch size of exactly 32. -/
theorem train_loader_batch_size_halved :
    (∀ (T : TestCollab) (mTA : ℕ → ℕ → Fwd) (mVA : ℕ → Fwd)
       (tb vb teb : List Batch) (mt mp ck : String) (cu ms : Bool)
       (epochs patience : ℕ) (crit : String),
      (train_test T mTA mVA tb vb teb mt mp ck cu ms 64 epochs patience
          crit).train_loader.batch_size = 32 ∧
      (train_test T mTA mVA tb vb teb mt mp ck cu ms 64 epochs patience
          crit).train_batch_size = 32) ∧
    (∀ (T : TestCollab) (mTA : ℕ → ℕ → Fwd) (mVA : ℕ → Fwd)
       (tb vb teb : List Batch) (mt mp ck : String) (cu ms : Bool)
       (batch_size epochs patience : ℕ) (crit : String),
      (train_test T mTA mVA tb vb teb mt mp ck cu ms batch_size epochs patience
          crit).train_loader.batch_size = batch_size / 2 ∧
      (train_test T mTA mVA tb vb teb mt mp ck cu ms batch_size epochs patience
          crit).train_batch_size = batch_size / 2) :=
  ⟨fun _ _ _ _ _ _ _ _ _ _ _ _ _ _ => ⟨rfl, rfl⟩,
   fun _ _ _ _ _ _ _ _ _ _ _ _ _ _ _ => ⟨rfl, rfl⟩⟩

/-- C8: the compute device is selected once per run with preference CUDA,
then MPS, then CPU, and the very same device value is the one the train call
and the test call receive. -/
theorem device_selected_once_and_shared (T : TestCollab) (mTA : ℕ → ℕ → Fwd)
    (mVA : ℕ → Fwd) (tb vb teb : List Batch) (mt mp ck : String) (cu ms : Bool)
    (batch_size epochs patience : ℕ) (crit : String) :
    (train_test T mTA mVA tb vb teb mt mp ck cu ms batch_size epochs patience
        crit).device = selectDevice cu ms ∧
    (train_test T mTA mVA tb vb teb mt mp ck cu ms batch_size epochs patience
        crit).trainRes.device =
      (train_test T mTA mVA tb vb teb mt mp ck cu ms batch_size epochs patience
        crit).device ∧
    (train_test T mTA mVA tb vb teb mt mp ck cu ms batch_size epochs patience
        crit).testRes.device =
      (train_test T mTA mVA tb vb teb mt mp ck cu ms batch_size epochs patience
        crit).device ∧
    (∀ m2, selectDevice true m2 = "cuda") ∧
    selectDevice false true = "mps" ∧
    selectDevice false false = "cpu" := by
  refine ⟨rfl, ?_, rfl, fun _ => rfl, rfl, rfl⟩
  cases h : buildModel mt <;> simp [train_test, train, h]

end MortalityClassification
